import Mathlib

/-!
Shallow embedding of the Blueshirt web client conversation core
(`src/components/ChatInterface.tsx`): the session message history, the
profile-progress derivation, and the two dispatch paths (`handleSend` for
typed text, `handleButtonClick` for quick replies) to the Rasa backend.

Modelling conventions:
* JS timestamps (`Date.now()`, `new Date()`) are abstract instants (`Nat`);
  each call the source makes to the clock is an explicit parameter.
* `Math.random().toString()` for bot-message ids in `handleSend` is an
  explicit parameter `r : Nat → String` indexed by the response position.
* The network outcome of the single `axios.post` is an explicit
  `Except Unit (List ResponseItem)` argument: `.ok items` is a resolved
  response with parsed body, `.error ()` is any rejection caught by the
  handler's `catch` block.
* JS numbers are modelled at ideal precision as `Option ℚ`: `some q` is the
  finite value `q`, `none` is a non-finite result (`NaN` or `Infinity`,
  which in this program can only come from dividing by a zero field count).
-/

namespace Blueshirt

/-- The `sender` field of the `Message` interface: `'user' | 'bot'`. -/
inductive Sender
  | user
  | bot
deriving DecidableEq

/-- A quick-reply button `{ title, payload }` carried by a bot message. -/
structure QuickReply where
  title : String
  payload : String
deriving DecidableEq

/-- The `Message` interface. `text` is an `Option` because the quick-reply
path copies `response.data[0].text` verbatim, which may be absent at runtime
even though the TypeScript annotation says `string`; `buttons` is the
optional `buttons?` field. -/
structure Message where
  id : String
  text : Option String
  sender : Sender
  timestamp : Nat
  buttons : Option (List QuickReply)
deriving DecidableEq

/-- A slot value as seen through the JS object lookup `slots[field]`:
`none` is an absent key (`undefined`), `some none` is `null`,
`some (some s)` is the string `s`. -/
abbrev SlotValue := Option (Option String)

/-- The externally supplied slot map consumed by `updateProgressFromSlots`. -/
abbrev SlotMap := String → SlotValue

/-- The `Section` interface of the progress model. -/
structure Section where
  name : String
  completed : Bool
  fields : List String
  completedFields : List String
deriving DecidableEq

/-- The `ProfileProgress` interface. `overallProgress` is a JS number,
modelled as `Option ℚ` (`none` = non-finite, i.e. `NaN`/`Infinity`). -/
structure ProfileProgress where
  sections : List Section
  overallProgress : Option ℚ
deriving DecidableEq

/-- Model of the JS `String.prototype.trim()` used by `handleSend`:
drop leading and trailing whitespace. Defined over the character list so
that concrete instances reduce in the kernel. -/
def jsTrim (s : String) : String :=
  ⟨((s.data.dropWhile Char.isWhitespace).reverse.dropWhile Char.isWhitespace).reverse⟩

/-- JS division of two counts: `0 / 0` is `NaN` and `a / 0` is `Infinity`,
both non-finite (`none`); otherwise the exact quotient. -/
def jsDiv (a b : Nat) : Option ℚ :=
  if b = 0 then none else some ((a : ℚ) / (b : ℚ))

/-- The filter predicate inside `updateProgressFromSlots`:
`slots[field] !== null && slots[field] !== undefined && slots[field] !== ''`. -/
def slotFilled (v : SlotValue) : Bool :=
  decide (v ≠ some none) && decide (v ≠ none) && decide (v ≠ some (some ""))

/-- The per-section body of the `prev.sections.map` in
`updateProgressFromSlots`: filter the section's fields by `slotFilled`,
and set `completed` by comparing lengths. -/
def sectionUpdate (slots : SlotMap) (s : Section) : Section :=
  let newCompletedFields := s.fields.filter (fun field => slotFilled (slots field))
  { s with
    completedFields := newCompletedFields,
    completed := newCompletedFields.length == s.fields.length }

/-- `sections.reduce((sum, section) => sum + section.fields.length, 0)`. -/
def totalFieldCount (sections : List Section) : Nat :=
  sections.foldl (fun sum s => sum + s.fields.length) 0

/-- `sections.reduce((sum, section) => sum + section.completedFields.length, 0)`. -/
def completedFieldCount (sections : List Section) : Nat :=
  sections.foldl (fun sum s => sum + s.completedFields.length) 0

/-- `updateProgressFromSlots` from `ChatInterface.tsx`: the progress
recompute. Maps every section through the filter, then sets
`overallProgress = (completedFields / totalFields) * 100` where the total is
taken over `prev.sections` and the completed count over the new sections. -/
def updateProgressFromSlots (slots : SlotMap) (prev : ProfileProgress) : ProfileProgress :=
  let newSections := prev.sections.map (sectionUpdate slots)
  { sections := newSections,
    overallProgress :=
      (jsDiv (completedFieldCount newSections) (totalFieldCount prev.sections)).map
        (fun q => q * 100) }

/-- The four static sections seeded into the `useState` initial value. -/
def initialSections : List Section :=
  [ { name := "Personal Information", completed := false,
      fields := ["first_name", "last_name", "email", "phone", "location", "birthday"],
      completedFields := [] },
    { name := "Work Experience", completed := false,
      fields := ["current_job", "past_jobs", "skills", "years_experience"],
      completedFields := [] },
    { name := "Education", completed := false,
      fields := ["highest_education", "school", "course", "year_completed"],
      completedFields := [] },
    { name := "Skills & Preferences", completed := false,
      fields := ["technical_skills", "soft_skills", "preferred_industry", "expected_salary"],
      completedFields := [] } ]

/-- The initial `ProfileProgress` state. -/
def initialProgress : ProfileProgress :=
  { sections := initialSections, overallProgress := some 0 }

/-- One item of the Rasa webhook response body: optional `text`, optional
`buttons`, and the collaborator-defined optional slot map (a field the spec
names; the client code never reads it, which the theorems below make
precise). -/
structure ResponseItem where
  text : Option String
  buttons : Option (List QuickReply)
  slots : Option SlotMap

/-- The body of the single `axios.post` a dispatch issues:
`{ sender: 'user', message: ... }`. -/
structure RasaRequest where
  sender : String
  message : String
deriving DecidableEq

/-- The fixed localized error text appended by both `catch` blocks. -/
def errorText : String :=
  "I apologize, but I\x27m unable to connect to the server at the moment. Please make sure the Rasa servers are running and try again."

/-- The four quick replies carried by the greeting message. -/
def greetingButtons : List QuickReply :=
  [ { title := "Gumawa ng bagong resume", payload := "/profile_builder" },
    { title := "Pagandahin ang iyong kasalukuyang resume",
      payload := "/improve_existing_resume" },
    { title := "Humanap ng trabahong angkop sa iyo", payload := "/job_matching" },
    { title := "Alamin ang mga training na makakatulong sa iyong career",
      payload := "/training_recommendations" } ]

/-- The synthetic greeting seeded by the mount effect (id `"1"`), created at
some clock instant `t0`. -/
def greetingMessage (t0 : Nat) : Message :=
  { id := "1",
    text := some "Magandang araw! Ako si Blessie, ang iyong virtual assistant mula sa Blueshirt Philippines - ang job portal para sa mga Pinoy blue collar workers. Ang aking misyon ay tulungan kang gumawa ng mas magandang resume para mas madali kang makahanap ng trabaho.\n\nPaano kita matutulungan ngayong araw?",
    sender := .bot,
    timestamp := t0,
    buttons := some greetingButtons }

/-- The component state the dispatch paths read and write:
`messages`, `inputText`, `serverError` (the degraded-connection flag) and
`profileProgress`. -/
structure SessionState where
  messages : List Message
  inputText : String
  serverError : Bool
  profileProgress : ProfileProgress
deriving DecidableEq

/-- The state right after mount: one greeting message, empty input, flag
clear, initial progress. -/
def initialState (t0 : Nat) : SessionState :=
  { messages := [greetingMessage t0],
    inputText := "",
    serverError := false,
    profileProgress := initialProgress }

/-- `handleSend` from `ChatInterface.tsx` (the typed-text dispatch).
`tUser` is the `Date.now()` instant of the user message, `r` supplies the
`Math.random().toString()` id of the i-th bot response, `tResp` the instant
at which the response (or rejection) is processed. Returns the new state
and the list of backend requests issued. -/
def handleSend (st : SessionState) (tUser : Nat) (r : Nat → String) (tResp : Nat)
    (outcome : Except Unit (List ResponseItem)) : SessionState × List RasaRequest :=
  if jsTrim st.inputText = "" then (st, [])
  else
    let userMessage : Message :=
      { id := toString tUser, text := some st.inputText, sender := .user,
        timestamp := tUser, buttons := none }
    let st1 := { st with messages := st.messages ++ [userMessage], inputText := "" }
    let req : RasaRequest := { sender := "user", message := st.inputText }
    match outcome with
    | .ok data =>
        let botResponses : List Message := data.enum.map (fun p =>
          { id := r p.1, text := some (p.2.text.getD ""), sender := .bot,
            timestamp := tResp, buttons := none })
        ({ st1 with messages := st1.messages ++ botResponses }, [req])
    | .error _ =>
        let errorMessage : Message :=
          { id := toString tResp, text := some errorText, sender := .bot,
            timestamp := tResp, buttons := none }
        ({ st1 with serverError := true,
                    messages := st1.messages ++ [errorMessage] }, [req])

/-- `handleButtonClick` from `ChatInterface.tsx` (the quick-reply dispatch).
On success, only `response.data[0]` is surfaced (when the array is
non-empty), with id `(Date.now() + 1).toString()`, its `text` copied
verbatim and its `buttons` carried through. No emptiness check is made on
`payload` and `inputText` is not touched. -/
def handleButtonClick (st : SessionState) (payload : String) (tUser : Nat) (tResp : Nat)
    (outcome : Except Unit (List ResponseItem)) : SessionState × List RasaRequest :=
  let userMessage : Message :=
    { id := toString tUser, text := some payload, sender := .user,
      timestamp := tUser, buttons := none }
  let st1 := { st with messages := st.messages ++ [userMessage] }
  let req : RasaRequest := { sender := "user", message := payload }
  match outcome with
  | .ok data =>
      match data with
      | [] => (st1, [req])
      | first :: _ =>
          let botMessage : Message :=
            { id := toString (tResp + 1), text := first.text, sender := .bot,
              timestamp := tResp, buttons := first.buttons }
          ({ st1 with messages := st1.messages ++ [botMessage] }, [req])
  | .error _ =>
      let errorMessage : Message :=
        { id := toString tResp, text := some errorText, sender := .bot,
          timestamp := tResp, buttons := none }
      ({ st1 with serverError := true,
                  messages := st1.messages ++ [errorMessage] }, [req])

/-- The renderer's `onClick={() => handleButtonClick(button.payload)}`:
a click dispatches the button's raw payload, never its display title. -/
def clickButton (st : SessionState) (b : QuickReply) (tUser tResp : Nat)
    (outcome : Except Unit (List ResponseItem)) : SessionState × List RasaRequest :=
  handleButtonClick st b.payload tUser tResp outcome

/-- The operations of the core that can touch the session state. -/
inductive Op
  | send (tUser : Nat) (r : Nat → String) (tResp : Nat)
      (outcome : Except Unit (List ResponseItem))
  | quickReply (payload : String) (tUser tResp : Nat)
      (outcome : Except Unit (List ResponseItem))
  | typeInput (text : String)
  | ingestSlots (slots : SlotMap)

/-- One step of the core: a typed-text dispatch, a quick-reply dispatch,
editing the input buffer (`setInputText` from the text field), or a
progress recompute (`updateProgressFromSlots`). -/
def step (st : SessionState) : Op → SessionState
  | .send tUser r tResp outcome => (handleSend st tUser r tResp outcome).1
  | .quickReply payload tUser tResp outcome =>
      (handleButtonClick st payload tUser tResp outcome).1
  | .typeInput text => { st with inputText := text }
  | .ingestSlots slots =>
      { st with profileProgress := updateProgressFromSlots slots st.profileProgress }

/-- Spec-side (from the spec text, to be compared with the code):
a slot value is completed when it is present, not null, not undefined, and
not the empty string. -/
def specFilled (v : SlotValue) : Bool :=
  match v with
  | some (some s) => decide (s ≠ "")
  | _ => false

/-- Spec-side: the total field count, summed across all sections. -/
def specFieldTotal (P : ProfileProgress) : Nat :=
  (P.sections.map (fun s => s.fields.length)).sum

/-- Spec-side: the completed-field count, summed across all sections. -/
def specCompletedTotal (P : ProfileProgress) : Nat :=
  (P.sections.map (fun s => s.completedFields.length)).sum

/-- A bare session state used to instantiate theorems at concrete inputs. -/
def sessionW (input : String) : SessionState :=
  { messages := [], inputText := input, serverError := false,
    profileProgress := initialProgress }

/-- A progress state whose single section has no fields at all, so the total
field count is `0`. -/
def zeroFieldProgress : ProfileProgress :=
  { sections := [{ name := "Empty", completed := false, fields := [],
                   completedFields := [] }],
    overallProgress := some 0 }

lemma foldl_add_count (f : Section → Nat) (l : List Section) (acc : Nat) :
    l.foldl (fun sum s => sum + f s) acc = acc + (l.map f).sum := by
  induction l generalizing acc with
  | nil => simp
  | cons a t ih => simp [ih, Nat.add_assoc]

lemma totalFieldCount_eq_sum (l : List Section) :
    totalFieldCount l = (l.map (fun s => s.fields.length)).sum := by
  simpa using foldl_add_count (fun s => s.fields.length) l 0

lemma completedFieldCount_eq_sum (l : List Section) :
    completedFieldCount l = (l.map (fun s => s.completedFields.length)).sum := by
  simpa using foldl_add_count (fun s => s.completedFields.length) l 0

lemma sectionUpdate_fields (slots : SlotMap) (s : Section) :
    (sectionUpdate slots s).fields = s.fields := rfl

lemma sectionUpdate_idem (slots : SlotMap) (s : Section) :
    sectionUpdate slots (sectionUpdate slots s) = sectionUpdate slots s := rfl

lemma totalFieldCount_map_sectionUpdate (slots : SlotMap) (l : List Section) :
    totalFieldCount (l.map (sectionUpdate slots)) = totalFieldCount l := by
  rw [totalFieldCount_eq_sum, totalFieldCount_eq_sum, List.map_map]
  rfl

lemma slotFilled_eq_specFilled (v : SlotValue) : slotFilled v = specFilled v := by
  rcases v with _ | v
  · rfl
  · rcases v with _ | s
    · rfl
    · simp [slotFilled, specFilled]

lemma updateProgressFromSlots_sections (slots : SlotMap) (prev : ProfileProgress) :
    (updateProgressFromSlots slots prev).sections
      = prev.sections.map (sectionUpdate slots) := rfl

lemma updateProgressFromSlots_overall (slots : SlotMap) (prev : ProfileProgress) :
    (updateProgressFromSlots slots prev).overallProgress
      = (jsDiv (completedFieldCount (prev.sections.map (sectionUpdate slots)))
          (totalFieldCount prev.sections)).map (fun q => q * 100) := rfl

/-- Claim C1: the spec says the Dispatcher feeds every received slot map to
the Progress Model's recompute. The code defines `updateProgressFromSlots`
(commented "Update progress when receiving bot messages with slot values")
but neither dispatch path ever calls it: the profile progress is unchanged
by every dispatch, whatever the response — and so also when a response item
carries a slot map. -/
theorem c1_dispatch_never_recomputes_progress
    (st : SessionState) (payload : String) (tUser tResp : Nat) (r : Nat → String)
    (outcome : Except Unit (List ResponseItem)) :
    (handleButtonClick st payload tUser tResp outcome).1.profileProgress
        = st.profileProgress ∧
    (handleSend st tUser r tResp outcome).1.profileProgress = st.profileProgress := by
  constructor
  · cases outcome with
    | ok data => cases data <;> rfl
    | error e => rfl
  · by_cases htrim : jsTrim st.inputText = ""
    · simp [handleSend, htrim]
    · cases outcome with
      | ok data => simp [handleSend, htrim]
      | error e => simp [handleSend, htrim]

/-- Claim C3 counterexample: on a configuration whose total field count is
`0`, the recompute divides by zero and `overallProgress` becomes `NaN`
(modelled `none`), not `0` — the division is not guarded. -/
theorem c3_counterexample_zero_total_not_zero :
    totalFieldCount zeroFieldProgress.sections = 0 ∧
    (updateProgressFromSlots (fun _ => none) zeroFieldProgress).overallProgress = none ∧
    (updateProgressFromSlots (fun _ => none) zeroFieldProgress).overallProgress
      ≠ some 0 := by
  decide

/-- Claim C3 (amended): for every slot map, if the total field count across
all sections is `0`, recompute yields a non-finite `overallProgress`
(`NaN`, modelled `none`) — the division is not guarded. -/
theorem c3_amended_zero_total_gives_nan (slots : SlotMap) (prev : ProfileProgress)
    (h : totalFieldCount prev.sections = 0) :
    (updateProgressFromSlots slots prev).overallProgress = none := by
  simp [updateProgressFromSlots, jsDiv, h]

theorem c3_amended_witness :
    totalFieldCount zeroFieldProgress.sections = 0 ∧
    (updateProgressFromSlots (fun _ => none) zeroFieldProgress).overallProgress = none :=
  ⟨by decide, c3_amended_zero_total_gives_nan (fun _ => none) zeroFieldProgress (by decide)⟩

/-- Claim C4: for every slot map (on any configuration with a non-zero
total field count, as in the shipped four-section configuration), the
recompute gives every section exactly the fields whose slot value is
present, not null, not undefined and not the empty string — in the
section's fixed field order — sets `completed` iff all fields of the
section are completed, and sets `overallProgress` to
`100 * (Σ completedFields) / (Σ fields)` across all sections. -/
theorem c4_recompute_matches_spec (slots : SlotMap) (prev : ProfileProgress)
    (h : totalFieldCount prev.sections ≠ 0) :
    (∀ s ∈ (updateProgressFromSlots slots prev).sections,
        s.completedFields = s.fields.filter (fun f => specFilled (slots f)) ∧
        (s.completed = true ↔ s.completedFields.length = s.fields.length)) ∧
    (updateProgressFromSlots slots prev).overallProgress
      = some (100 * (specCompletedTotal (updateProgressFromSlots slots prev) : ℚ)
          / (specFieldTotal (updateProgressFromSlots slots prev) : ℚ)) := by
  constructor
  · intro s hs
    rw [updateProgressFromSlots_sections] at hs
    obtain ⟨s0, hs0, rfl⟩ := List.mem_map.mp hs
    have hfun : (fun f => slotFilled (slots f)) = (fun f => specFilled (slots f)) :=
      funext (fun f => slotFilled_eq_specFilled (slots f))
    constructor
    · show (sectionUpdate slots s0).completedFields = _
      simp [sectionUpdate, hfun]
    · simp [sectionUpdate]
  · have ht : specFieldTotal (updateProgressFromSlots slots prev)
        = totalFieldCount prev.sections := by
      rw [specFieldTotal, updateProgressFromSlots_sections, ← totalFieldCount_eq_sum,
        totalFieldCount_map_sectionUpdate]
    have hc : specCompletedTotal (updateProgressFromSlots slots prev)
        = completedFieldCount (prev.sections.map (sectionUpdate slots)) := by
      rw [specCompletedTotal, updateProgressFromSlots_sections, ← completedFieldCount_eq_sum]
    rw [updateProgressFromSlots_overall, ht, hc]
    simp only [jsDiv, if_neg h, Option.map_some']
    congr 1
    ring

theorem c4_witness :
    totalFieldCount initialProgress.sections ≠ 0 ∧
    (updateProgressFromSlots
        (fun f => if f = "first_name" then some (some "Juan") else none)
        initialProgress).overallProgress
      = some (100 * (specCompletedTotal (updateProgressFromSlots
            (fun f => if f = "first_name" then some (some "Juan") else none)
            initialProgress) : ℚ)
          / (specFieldTotal (updateProgressFromSlots
            (fun f => if f = "first_name" then some (some "Juan") else none)
            initialProgress) : ℚ)) :=
  ⟨by decide, (c4_recompute_matches_spec
      (fun f => if f = "first_name" then some (some "Juan") else none)
      initialProgress (by decide)).2⟩

/-- Claim C9: the degraded-connection flag is sticky — once `serverError`
is true, no operation of the core (typed-text dispatch with any outcome,
quick-reply dispatch with any outcome, editing the input, a progress
recompute) ever sets it back to false. -/
theorem c9_connection_flag_sticky (st : SessionState) (op : Op)
    (h : st.serverError = true) : (step st op).serverError = true := by
  cases op with
  | send tUser r tResp outcome =>
    by_cases htrim : jsTrim st.inputText = ""
    · simpa [step, handleSend, htrim] using h
    · cases outcome with
      | ok data => simpa [step, handleSend, htrim] using h
      | error e => simp [step, handleSend, htrim]
  | quickReply payload tUser tResp outcome =>
    cases outcome with
    | ok data =>
      cases data with
      | nil => simpa [step, handleButtonClick] using h
      | cons first rest => simpa [step, handleButtonClick] using h
    | error e => simp [step, handleButtonClick]
  | typeInput text => simpa [step] using h
  | ingestSlots slots => simpa [step] using h

theorem c9_witness :
    ({ sessionW "" with serverError := true } : SessionState).serverError = true ∧
    (step { sessionW "" with serverError := true } (Op.typeInput "hello")).serverError
      = true :=
  ⟨rfl, c9_connection_flag_sticky { sessionW "" with serverError := true }
    (Op.typeInput "hello") rfl⟩

/-- Claim C10: the recompute is deterministic (equal slot-map inputs give
equal outputs) and idempotent (recomputing twice with the same slot map
gives the same state as recomputing once). -/
theorem c10_recompute_deterministic_idempotent
    (slots slots' : SlotMap) (prev : ProfileProgress) (h : slots = slots') :
    updateProgressFromSlots slots prev = updateProgressFromSlots slots' prev ∧
    updateProgressFromSlots slots (updateProgressFromSlots slots prev)
      = updateProgressFromSlots slots prev := by
  constructor
  · rw [h]
  · have hcomp : sectionUpdate slots ∘ sectionUpdate slots = sectionUpdate slots :=
      funext (sectionUpdate_idem slots)
    have hmap : (prev.sections.map (sectionUpdate slots)).map (sectionUpdate slots)
        = prev.sections.map (sectionUpdate slots) := by
      rw [List.map_map, hcomp]
    simp [updateProgressFromSlots, hmap, totalFieldCount_map_sectionUpdate]

/-- Claim C2: for every dispatch (typed text with non-empty trimmed input,
or quick reply) whose backend call rejects, the degraded-connection flag
becomes true and exactly one bot-sender error message with the fixed
localized text is appended after the dispatch's user message; nothing else
in the state changes (the explicit record updates are exhaustive) and
exactly one request was issued — no retry. -/
theorem c2_failure_sets_flag_appends_one_error
    (st st' : SessionState) (payload : String) (tUser tResp tUser' tResp' : Nat)
    (r : Nat → String) (h : jsTrim st'.inputText ≠ "") :
    handleButtonClick st payload tUser tResp (.error ()) =
      ({ st with
          messages := st.messages ++
            [{ id := toString tUser, text := some payload, sender := .user,
               timestamp := tUser, buttons := none },
             { id := toString tResp, text := some errorText, sender := .bot,
               timestamp := tResp, buttons := none }],
          serverError := true }, [{ sender := "user", message := payload }]) ∧
    handleSend st' tUser' r tResp' (.error ()) =
      ({ st' with
          messages := st'.messages ++
            [{ id := toString tUser', text := some st'.inputText, sender := .user,
               timestamp := tUser', buttons := none },
             { id := toString tResp', text := some errorText, sender := .bot,
               timestamp := tResp', buttons := none }],
          inputText := "",
          serverError := true }, [{ sender := "user", message := st'.inputText }]) := by
  constructor
  · simp [handleButtonClick, List.append_assoc]
  · simp [handleSend, h, List.append_assoc]

theorem c2_witness :
    jsTrim (sessionW "Juan Dela Cruz").inputText ≠ "" ∧
    (handleButtonClick (sessionW "") "/profile_builder" 5 6 (.error ()) =
      ({ sessionW "" with
          messages := (sessionW "").messages ++
            [{ id := toString 5, text := some "/profile_builder", sender := .user,
               timestamp := 5, buttons := none },
             { id := toString 6, text := some errorText, sender := .bot,
               timestamp := 6, buttons := none }],
          serverError := true }, [{ sender := "user", message := "/profile_builder" }]) ∧
    handleSend (sessionW "Juan Dela Cruz") 7 (fun _ => "0.5") 8 (.error ()) =
      ({ sessionW "Juan Dela Cruz" with
          messages := (sessionW "Juan Dela Cruz").messages ++
            [{ id := toString 7, text := some (sessionW "Juan Dela Cruz").inputText,
               sender := .user, timestamp := 7, buttons := none },
             { id := toString 8, text := some errorText, sender := .bot,
               timestamp := 8, buttons := none }],
          inputText := "",
          serverError := true },
        [{ sender := "user", message := (sessionW "Juan Dela Cruz").inputText }])) :=
  ⟨by decide, c2_failure_sets_flag_appends_one_error (sessionW "")
    (sessionW "Juan Dela Cruz") "/profile_builder" 5 6 7 8 (fun _ => "0.5") (by decide)⟩

/-- Claim C5: the spec requires message ids to be distinct even for
messages created in the same instant. The failing quick-reply path reuses
the raw clock value for both the user message and the error message: when
the rejection is processed in the same instant the dispatch started
(`Date.now()` returning 1000 both times), two distinct messages get the
same id "1000". -/
theorem c5_same_instant_id_collision :
    ((handleButtonClick (initialState 0) "/profile_builder" 1000 1000
        (.error ())).1.messages.get? 1).map Message.id = some "1000" ∧
    ((handleButtonClick (initialState 0) "/profile_builder" 1000 1000
        (.error ())).1.messages.get? 2).map Message.id = some "1000" ∧
    (handleButtonClick (initialState 0) "/profile_builder" 1000 1000
        (.error ())).1.messages.get? 1 ≠
      (handleButtonClick (initialState 0) "/profile_builder" 1000 1000
        (.error ())).1.messages.get? 2 := by
  decide

/-- Claim C6 counterexample: on the typed-text path, a response item that
carries a buttons array is appended as a bot message with no buttons at
all — the buttons do not carry through. -/
theorem c6_counterexample_sendText_drops_buttons :
    ({ text := some "Choose:", buttons := some [{ title := "A", payload := "/a" }],
       slots := none } : ResponseItem).buttons
      = some [{ title := "A", payload := "/a" }] ∧
    ((handleSend (sessionW "Hi") 5 (fun _ => "0.1") 6
        (.ok [{ text := some "Choose:",
                buttons := some [{ title := "A", payload := "/a" }],
                slots := none }])).1.messages.get? 1).map Message.sender
      = some .bot ∧
    ((handleSend (sessionW "Hi") 5 (fun _ => "0.1") 6
        (.ok [{ text := some "Choose:",
                buttons := some [{ title := "A", payload := "/a" }],
                slots := none }])).1.messages.get? 1).map Message.buttons
      = some none := by
  decide

/-- Claim C6 (amended): a response item's buttons carry through unmodified
only on the quick-reply path (onto the single surfaced first item); the
typed-text path appends every bot message with no buttons, dropping any
buttons the items carried; and no appended message whose sender is not bot
ever carries buttons, on either path and any outcome. -/
theorem c6_amended_buttons_carry
    (st : SessionState) (p : String) (t1 t2 : Nat)
    (first : ResponseItem) (rest : List ResponseItem)
    (st' : SessionState) (t1' t2' : Nat) (r : Nat → String)
    (data : List ResponseItem) (outcome : Except Unit (List ResponseItem))
    (h : jsTrim st'.inputText ≠ "") :
    (handleButtonClick st p t1 t2 (.ok (first :: rest))).1.messages
      = st.messages ++
        [{ id := toString t1, text := some p, sender := .user,
           timestamp := t1, buttons := none },
         { id := toString (t2 + 1), text := first.text, sender := .bot,
           timestamp := t2, buttons := first.buttons }] ∧
    (∀ m ∈ (handleSend st' t1' r t2' (.ok data)).1.messages,
        m ∉ st'.messages → m.buttons = none) ∧
    (∀ m ∈ (handleButtonClick st p t1 t2 outcome).1.messages,
        m ∉ st.messages → m.sender ≠ .bot → m.buttons = none) ∧
    (∀ m ∈ (handleSend st' t1' r t2' outcome).1.messages,
        m ∉ st'.messages → m.sender ≠ .bot → m.buttons = none) := by
  refine ⟨?_, ?_, ?_, ?_⟩
  · simp [handleButtonClick, List.append_assoc]
  · intro m hm hnot
    simp only [handleSend, if_neg h, List.append_assoc, List.mem_append,
      List.mem_singleton, List.mem_map] at hm
    rcases hm with hm | hm | hm
    · exact absurd hm hnot
    · rw [hm]
    · obtain ⟨q, hq, rfl⟩ := hm
      rfl
  · intro m hm hnot hsender
    cases outcome with
    | ok d =>
      cases d with
      | nil =>
        simp only [handleButtonClick, List.mem_append, List.mem_singleton] at hm
        rcases hm with hm | hm
        · exact absurd hm hnot
        · rw [hm]
      | cons f tl =>
        simp only [handleButtonClick, List.append_assoc, List.mem_append,
          List.mem_singleton, List.mem_cons, List.not_mem_nil, or_false] at hm
        rcases hm with hm | hm | hm
        · exact absurd hm hnot
        · rw [hm]
        · rw [hm] at hsender
          exact absurd rfl hsender
    | error e =>
      simp only [handleButtonClick, List.append_assoc, List.mem_append,
        List.mem_singleton, List.mem_cons, List.not_mem_nil, or_false] at hm
      rcases hm with hm | hm | hm
      · exact absurd hm hnot
      · rw [hm]
      · rw [hm] at hsender
        exact absurd rfl hsender
  · intro m hm hnot hsender
    by_cases htrim : jsTrim st'.inputText = ""
    · exact absurd htrim h
    cases outcome with
    | ok d =>
      simp only [handleSend, if_neg htrim, List.append_assoc, List.mem_append,
        List.mem_singleton, List.mem_map] at hm
      rcases hm with hm | hm | hm
      · exact absurd hm hnot
      · rw [hm]
      · obtain ⟨q, hq, rfl⟩ := hm
        rfl
    | error e =>
      simp only [handleSend, if_neg htrim, List.append_assoc, List.mem_append,
        List.mem_singleton, List.mem_cons, List.not_mem_nil, or_false] at hm
      rcases hm with hm | hm | hm
      · exact absurd hm hnot
      · rw [hm]
      · rw [hm] at hsender
        exact absurd rfl hsender

theorem c6_amended_witness :
    jsTrim (sessionW "Hi").inputText ≠ "" ∧
    (handleButtonClick (sessionW "") "/a" 5 6
        (.ok [{ text := some "pick", buttons := some [{ title := "B", payload := "/b" }],
                slots := none }])).1.messages
      = (sessionW "").messages ++
        [{ id := toString 5, text := some "/a", sender := .user,
           timestamp := 5, buttons := none },
         { id := toString (6 + 1),
           text := ({ text := some "pick",
                      buttons := some [{ title := "B", payload := "/b" }],
                      slots := none } : ResponseItem).text,
           sender := .bot, timestamp := 6,
           buttons := ({ text := some "pick",
                         buttons := some [{ title := "B", payload := "/b" }],
                         slots := none } : ResponseItem).buttons }] :=
  ⟨by decide, (c6_amended_buttons_carry (sessionW "") "/a" 5 6
    { text := some "pick", buttons := some [{ title := "B", payload := "/b" }],
      slots := none } [] (sessionW "Hi") 7 8 (fun _ => "0.5") [] (.ok [])
    (by decide)).1⟩

/-- Claim C7: a quick-reply dispatch appends a user message whose text is
the button's raw payload (not its title) and surfaces only the first
backend response item (if any) as a bot message carrying that item's
buttons, while a typed-text dispatch appends one buttonless bot message per
response item in response order, defaulting a missing text to the empty
string. -/
theorem c7_quickreply_first_vs_sendText_all
    (st : SessionState) (b : QuickReply) (t1 t2 : Nat) (data : List ResponseItem)
    (st' : SessionState) (t1' t2' : Nat) (r : Nat → String)
    (data' : List ResponseItem) (h : jsTrim st'.inputText ≠ "") :
    (clickButton st b t1 t2 (.ok data)).1.messages
      = st.messages ++
        [{ id := toString t1, text := some b.payload, sender := .user,
           timestamp := t1, buttons := none }] ++
        (data.take 1).map (fun first =>
          { id := toString (t2 + 1), text := first.text, sender := .bot,
            timestamp := t2, buttons := first.buttons }) ∧
    (handleSend st' t1' r t2' (.ok data')).1.messages
      = st'.messages ++
        [{ id := toString t1', text := some st'.inputText, sender := .user,
           timestamp := t1', buttons := none }] ++
        data'.enum.map (fun q =>
          { id := r q.1, text := some (q.2.text.getD ""), sender := .bot,
            timestamp := t2', buttons := none }) := by
  constructor
  · cases data with
    | nil => simp [clickButton, handleButtonClick]
    | cons f tl => simp [clickButton, handleButtonClick, List.append_assoc]
  · simp [handleSend, h, List.append_assoc]

theorem c7_witness :
    jsTrim (sessionW "Juan").inputText ≠ "" ∧
    ((clickButton (sessionW "") { title := "Make a resume", payload := "/profile_builder" }
        4 9 (.ok [{ text := some "one", buttons := some [{ title := "B", payload := "/b" }],
                    slots := none },
                  { text := some "two", buttons := none, slots := none }])).1.messages
      = (sessionW "").messages ++
        [{ id := toString 4,
           text := some ({ title := "Make a resume",
                           payload := "/profile_builder" } : QuickReply).payload,
           sender := .user, timestamp := 4, buttons := none }] ++
        (([{ text := some "one", buttons := some [{ title := "B", payload := "/b" }],
             slots := none },
           { text := some "two", buttons := none, slots := none }]
            : List ResponseItem).take 1).map (fun first =>
          { id := toString (9 + 1), text := first.text, sender := .bot,
            timestamp := 9, buttons := first.buttons }) ∧
    (handleSend (sessionW "Juan") 7 (fun i => toString i) 8
        (.ok [{ text := some "one", buttons := some [{ title := "B", payload := "/b" }],
                slots := none },
              { text := none, buttons := none, slots := none }])).1.messages
      = (sessionW "Juan").messages ++
        [{ id := toString 7, text := some (sessionW "Juan").inputText,
           sender := .user, timestamp := 7, buttons := none }] ++
        (([{ text := some "one", buttons := some [{ title := "B", payload := "/b" }],
             slots := none },
           { text := none, buttons := none, slots := none }]
            : List ResponseItem).enum).map (fun q =>
          { id := toString q.1, text := some (q.2.text.getD ""), sender := .bot,
            timestamp := 8, buttons := none })) :=
  ⟨by decide, c7_quickreply_first_vs_sendText_all (sessionW "")
    { title := "Make a resume", payload := "/profile_builder" } 4 9
    [{ text := some "one", buttons := some [{ title := "B", payload := "/b" }],
       slots := none },
     { text := some "two", buttons := none, slots := none }]
    (sessionW "Juan") 7 8 (fun i => toString i)
    [{ text := some "one", buttons := some [{ title := "B", payload := "/b" }],
       slots := none },
     { text := none, buttons := none, slots := none }] (by decide)⟩

/-- Claim C8 counterexample: the quick-reply dispatch performs no emptiness
validation — dispatching the empty payload (which trims to the empty
string) appends a user message and issues a backend request, so the claim
fails on the quick-reply path. -/
theorem c8_counterexample_empty_payload_dispatched :
    jsTrim "" = "" ∧
    (handleButtonClick (sessionW "") "" 5 6 (.ok [])).1.messages
      ≠ (sessionW "").messages ∧
    (handleButtonClick (sessionW "") "" 5 6 (.ok [])).2
      = [{ sender := "user", message := "" }] := by
  decide

/-- Claim C8 (amended): only the typed-text dispatch treats outbound text
that trims to the empty string as a silent no-op — it appends no message,
issues no backend request, and leaves the whole session state unchanged;
the quick-reply dispatch has no such validation. -/
theorem c8_amended_sendText_empty_noop (st : SessionState) (tUser tResp : Nat)
    (r : Nat → String) (outcome : Except Unit (List ResponseItem))
    (h : jsTrim st.inputText = "") :
    handleSend st tUser r tResp outcome = (st, []) := by
  simp [handleSend, h]

theorem c8_amended_witness :
    jsTrim (sessionW "   ").inputText = "" ∧
    handleSend (sessionW "   ") 5 (fun _ => "0.5") 6 (.ok []) = (sessionW "   ", []) :=
  ⟨by decide, c8_amended_sendText_empty_noop (sessionW "   ") 5 6 (fun _ => "0.5")
    (.ok []) (by decide)⟩

theorem c10_witness :
    (fun _ : String => (none : SlotValue)) = (fun _ : String => (none : SlotValue)) ∧
    updateProgressFromSlots (fun _ => none)
        (updateProgressFromSlots (fun _ => none) initialProgress)
      = updateProgressFromSlots (fun _ => none) initialProgress :=
  ⟨rfl, (c10_recompute_deterministic_idempotent (fun _ => none) (fun _ => none)
    initialProgress rfl).2⟩

end Blueshirt
